import Mathlib

/-
Verification of the two algorithmic cores of the jfrog-sagen repository:

* `Reports` embeds `src/xray/reports.py`: the paginated report-summary
  enumerator `_report_summaries_generator` (modelled with explicit fuel,
  since the Python `while True` loop is unbounded, and an abstract
  page-fetch oracle standing for the HTTP call) and the report-type
  dispatch of `import_definitions`.

* `SitesDiff` embeds `src/artifactory/sites_diff.py`: the pure
  set-differencing core of `diff`.  The two HTTP fetchers
  `_repository_keys` and `_list_items` return Python dicts; a dict is
  used by the algorithm only through its key set and item lookup, so a
  side is embedded as a finite key set together with a lookup function.
-/

namespace Reports

/-- One step of `_report_summaries_generator`: fetch page `page_num`; if the
page is empty stop, otherwise yield its records and continue with
`page_num + 1`.  The result pairs the records yielded with the list of page
numbers fetched, in fetch order.  `fuel` bounds the unbounded Python loop. -/
def genAux {α : Type} (fetch : Nat → List α) : Nat → Nat → List α × List Nat
  | 0, _ => ([], [])
  | fuel + 1, page_num =>
    let reports := fetch page_num
    if reports.isEmpty then ([], [page_num])
    else
      let rest := genAux fetch fuel (page_num + 1)
      (reports ++ rest.1, page_num :: rest.2)

/-- `_report_summaries_generator`: the enumeration starts at page 1. -/
def reportSummariesGenerator {α : Type} (fetch : Nat → List α) (fuel : Nat) :
    List α × List Nat :=
  genAux fetch fuel 1

/-- The report-type dispatch of `import_definitions`
(src/xray/reports.py lines 86-98): maps the payload tag to the endpoint
path segment, or fails with the unrecognized-report-type error. -/
def uriTypeOf (report_type : String) : Except String String :=
  if report_type = "license" then Except.ok "licenses"
  else if report_type = "vulnerability" then Except.ok "vulnerabilities"
  else if report_type = "operational_risk" then Except.ok "operationalRisks"
  else Except.error ("Unrecognized report type: " ++ report_type)

/-- The closed enumeration of supported report-type tags. -/
def supportedReportTypes : List String :=
  ["license", "vulnerability", "operational_risk"]

end Reports

namespace SitesDiff

/-- One side's repository dict, as returned by `_repository_keys`:
`diff` uses it only through `set(d.keys())` and `d[key]["type"]`. -/
structure RepoSide where
  keys : Finset String
  type : String → String

/-- One artifact item: the two content-identity hash fields that `diff`
reads (`item["sha1"]`, `item["sha2"]`). -/
structure ArtifactItem where
  sha1 : String
  sha2 : String
deriving DecidableEq

/-- One side's artifact dict for a single repository, as returned by
`_list_items`: used through `set(d.keys())` and `d[uri]`. -/
structure ArtSide where
  uris : Finset String
  item : String → ArtifactItem

/-- `missing_in_1 = repositories_2_keys - repositories_1_keys`. -/
def missing_in_1 (r1 r2 : RepoSide) : Finset String :=
  r2.keys \ r1.keys

/-- `missing_in_2 = repositories_1_keys - repositories_2_keys`. -/
def missing_in_2 (r1 r2 : RepoSide) : Finset String :=
  r1.keys \ r2.keys

/-- `exists_in_both = repositories_1_keys.intersection(repositories_2_keys)`. -/
def exists_in_both (r1 r2 : RepoSide) : Finset String :=
  r1.keys ∩ r2.keys

/-- `rclass_mismatch`: the keys in both sides whose `"type"` fields differ
(the loop over `exists_in_both` appends exactly those keys). -/
def rclass_mismatch (r1 r2 : RepoSide) : Finset String :=
  (exists_in_both r1 r2).filter (fun key => r1.type key ≠ r2.type key)

/-- `missing_in_1_uris = items_in_2_uris - items_in_1_uris`. -/
def missing_in_1_uris (i1 i2 : ArtSide) : Finset String :=
  i2.uris \ i1.uris

/-- `missing_in_2_uris = items_in_1_uris - items_in_2_uris`. -/
def missing_in_2_uris (i1 i2 : ArtSide) : Finset String :=
  i1.uris \ i2.uris

/-- The uris appended to `diffs`: present on both sides with
`item_in_1["sha1"] != item_in_2["sha1"] or item_in_1["sha2"] != item_in_2["sha2"]`. -/
def diff_uris (i1 i2 : ArtSide) : Finset String :=
  (i1.uris ∩ i2.uris).filter (fun uri =>
    (i1.item uri).sha1 ≠ (i2.item uri).sha1 ∨ (i1.item uri).sha2 ≠ (i2.item uri).sha2)

/-- The per-repository artifact diff record.  Each field is `some s` exactly
when the code stored the (then non-empty) list under that dict key:
`missing_in_1`/`missing_in_2` are guarded by `if missing_in_X_uris:`, and
`diffs` is created by `setdefault` on the first differing uri. -/
structure ArtifactReport where
  missing_in_1 : Option (Finset String)
  missing_in_2 : Option (Finset String)
  diffs : Option (Finset String)
deriving DecidableEq

/-- The record built for one repository key by the artifact-comparison loop
body of `diff` (src/artifactory/sites_diff.py lines 96-115). -/
def artifactReport (i1 i2 : ArtSide) : ArtifactReport where
  missing_in_1 :=
    if (missing_in_1_uris i1 i2).Nonempty then some (missing_in_1_uris i1 i2) else none
  missing_in_2 :=
    if (missing_in_2_uris i1 i2).Nonempty then some (missing_in_2_uris i1 i2) else none
  diffs :=
    if (diff_uris i1 i2).Nonempty then some (diff_uris i1 i2) else none

/-- A record with no field: a key whose loop body never called
`artifacts_report.setdefault` is absent from the map. -/
def ArtifactReport.isEmptyRec (r : ArtifactReport) : Bool :=
  r.missing_in_1.isNone && r.missing_in_2.isNone && r.diffs.isNone

/-- The repository types skipped by the artifact comparison:
the side-1 `"type"` is `VIRTUAL` or `REMOTE`. -/
def aggregating : Finset String :=
  {"VIRTUAL", "REMOTE"}

/-- The `artifacts_report` dict: its key set and the record stored per key. -/
structure ArtifactsMap where
  keys : Finset String
  get : String → ArtifactReport

/-- The `"repositories"` section of the final report. -/
structure RepositoriesReport where
  missing_in_1 : Finset String
  missing_in_2 : Finset String
  rclass_mismatch : Finset String
deriving DecidableEq

/-- The final report assembled by `diff`: the repositories section plus the
`"artifacts"` entry, which stays `None` when `exclude_artifacts` is set. -/
structure DiffReport where
  repositories : RepositoriesReport
  artifacts : Option ArtifactsMap

/-- The pure core of `diff` (src/artifactory/sites_diff.py).  `items1` and
`items2` stand for the `_list_items` fetchers of the two sites: the loop
calls them once per compared repository key.  A key enters the
`artifacts_report` dict exactly when it is in `exists_in_both`, its side-1
type is not aggregating, and its loop body stored at least one field. -/
def diff (r1 r2 : RepoSide) (items1 items2 : String → ArtSide)
    (exclude_artifacts : Bool) : DiffReport where
  repositories :=
    { missing_in_1 := missing_in_1 r1 r2
      missing_in_2 := missing_in_2 r1 r2
      rclass_mismatch := rclass_mismatch r1 r2 }
  artifacts :=
    if exclude_artifacts then none
    else some
      { keys := (exists_in_both r1 r2).filter (fun key =>
          r1.type key ∉ aggregating ∧
          ¬ (artifactReport (items1 key) (items2 key)).isEmptyRec)
        get := fun key => artifactReport (items1 key) (items2 key) }

/-- The key set of the `artifacts` section, empty when the section is absent. -/
def DiffReport.artifactKeys (d : DiffReport) : Finset String :=
  match d.artifacts with
  | none => ∅
  | some m => m.keys

/-- Test fixture: side 1 of the end-to-end scenario, with a LOCAL and a
VIRTUAL repository. -/
def localSide1 : RepoSide where
  keys := {"lib-a", "lib-b"}
  type := fun key => if key = "lib-b" then "VIRTUAL" else "LOCAL"

/-- Test fixture: side 2, sharing `lib-a` and `lib-b` and adding `lib-c`. -/
def localSide2 : RepoSide where
  keys := {"lib-a", "lib-b", "lib-c"}
  type := fun _ => "LOCAL"

/-- Test fixture: side 1 artifacts, `x.jar` with hashes `(h1, h2)`. -/
def itemsA1 : ArtSide where
  uris := {"x.jar"}
  item := fun _ => ⟨"h1", "h2"⟩

/-- Test fixture: side 2 artifacts, `x.jar` with hashes `(h1, h3)`. -/
def itemsA2 : ArtSide where
  uris := {"x.jar"}
  item := fun _ => ⟨"h1", "h3"⟩

/-- Test fixture: the side-1 artifact fetcher. -/
def itemsFn1 : String → ArtSide := fun _ => itemsA1

/-- Test fixture: the side-2 artifact fetcher. -/
def itemsFn2 : String → ArtSide := fun _ => itemsA2

end SitesDiff

namespace Reports

/-- Test fixture: a page source with pages `[1, 2]`, `[3]`, then empty. -/
def fetchThreePages : Nat → List Nat := fun p =>
  if p = 1 then [1, 2] else if p = 2 then [3] else []

/-- Test fixture: a page source whose first page is already empty. -/
def fetchEmpty : Nat → List Nat := fun _ => []

end Reports

namespace Reports

/-- Helper: a run of `genAux` starting at `page`, when the `k` pages
`page, …, page + k - 1` are non-empty and page `page + k` is empty, yields
the concatenation of those `k` pages and fetches pages `page, …, page + k`. -/
theorem genAux_eq {α : Type} (fetch : Nat → List α) :
    ∀ (k fuel page : Nat), k + 1 ≤ fuel →
    (∀ i < k, fetch (page + i) ≠ []) →
    fetch (page + k) = [] →
    genAux fetch fuel page =
      ((List.range' page k).flatMap fetch, List.range' page (k + 1))
  | 0, fuel, page, hf, _, he => by
    obtain ⟨f, rfl⟩ : ∃ f, fuel = f + 1 := ⟨fuel - 1, by omega⟩
    simp only [Nat.add_zero] at he
    simp [genAux, he, List.range'_succ]
  | k + 1, fuel, page, hf, hne, he => by
    obtain ⟨f, rfl⟩ : ∃ f, fuel = f + 1 := ⟨fuel - 1, by omega⟩
    have hp : fetch page ≠ [] := by
      have h0 := hne 0 (by omega); simpa using h0
    have ih := genAux_eq fetch k f (page + 1) (by omega)
      (fun i hi => by
        have hh := hne (i + 1) (by omega)
        have heq : page + (i + 1) = page + 1 + i := by omega
        rwa [heq] at hh)
      (by
        have heq : page + 1 + k = page + (k + 1) := by omega
        rw [heq]; exact he)
    simp [genAux, List.isEmpty_iff, hp, ih, List.range'_succ, List.flatMap_cons]

/-- C1: for every page-fetch function, if pages `1, …, k` are non-empty and
page `k + 1` is the first empty page, the enumerator yields exactly the
concatenation of pages `1` through `k` in page order with within-page order
preserved, and its fetch trace is exactly `[1, …, k + 1]`: it starts at
page 1, increments by 1 after each non-empty page, performs `k + 1` fetch
calls, includes no record of the empty page, and fetches nothing beyond it. -/
theorem reportSummariesGenerator_paginates {α : Type} (fetch : Nat → List α)
    (k fuel : Nat) (hfuel : k + 1 ≤ fuel)
    (hne : ∀ i < k, fetch (i + 1) ≠ [])
    (hemp : fetch (k + 1) = []) :
    reportSummariesGenerator fetch fuel =
      ((List.range' 1 k).flatMap fetch, List.range' 1 (k + 1)) ∧
    (reportSummariesGenerator fetch fuel).2.length = k + 1 := by
  have h := genAux_eq fetch k fuel 1 hfuel
    (fun i hi => by rw [Nat.add_comm 1 i]; exact hne i hi)
    (by rw [Nat.add_comm 1 k]; exact hemp)
  refine ⟨h, ?_⟩
  show (genAux fetch fuel 1).2.length = k + 1
  rw [h]
  simp [List.length_range']

/-- Witness for C1: over pages `[1,2]`, `[3]`, `[]` the enumerator yields
`[1,2,3]` with fetch trace `[1,2,3]` (three calls), and over a first empty
page it yields nothing with one fetch call. -/
theorem reportSummariesGenerator_paginates_witness :
    ((2 : Nat) + 1 ≤ 3 ∧ (∀ i < 2, fetchThreePages (i + 1) ≠ []) ∧
      fetchThreePages (2 + 1) = []) ∧
    reportSummariesGenerator fetchThreePages 3 = ([1, 2, 3], [1, 2, 3]) ∧
    ((0 : Nat) + 1 ≤ 1 ∧ (∀ i < 0, fetchEmpty (i + 1) ≠ []) ∧
      fetchEmpty (0 + 1) = []) ∧
    reportSummariesGenerator fetchEmpty 1 = ([], [1]) := by
  refine ⟨⟨by decide, by decide, by decide⟩, ?_, ⟨by decide, by decide, by decide⟩, ?_⟩
  · have h := reportSummariesGenerator_paginates fetchThreePages 2 3
      (by decide) (by decide) (by decide)
    rw [h.1]; decide
  · have h := reportSummariesGenerator_paginates fetchEmpty 0 1
      (by decide) (by decide) (by decide)
    rw [h.1]; decide

/-- C9: the definition-import dispatch fails with the unrecognized-type
error exactly when the report-type tag is outside the closed enumeration
license, vulnerability, operational_risk; each tag in the enumeration is
routed to its endpoint segment (licenses, vulnerabilities,
operationalRisks) without error. -/
theorem importDefinitions_dispatch (t : String) :
    ((uriTypeOf t).isOk = false ↔ t ∉ supportedReportTypes) ∧
    uriTypeOf "license" = Except.ok "licenses" ∧
    uriTypeOf "vulnerability" = Except.ok "vulnerabilities" ∧
    uriTypeOf "operational_risk" = Except.ok "operationalRisks" := by
  refine ⟨?_, rfl, rfl, rfl⟩
  unfold uriTypeOf supportedReportTypes
  split_ifs with h1 h2 h3 <;> simp_all [Except.isOk, Except.toBool]

/-- Witness for C9: the tag `license` is accepted and routed to `licenses`,
and an out-of-enumeration tag is rejected. -/
theorem importDefinitions_dispatch_witness :
    ((uriTypeOf "bogus").isOk = false ↔ "bogus" ∉ supportedReportTypes) ∧
    uriTypeOf "license" = Except.ok "licenses" ∧
    uriTypeOf "vulnerability" = Except.ok "vulnerabilities" ∧
    uriTypeOf "operational_risk" = Except.ok "operationalRisks" :=
  importDefinitions_dispatch "bogus"

end Reports

namespace SitesDiff

/-- C2: `missing_in_1` (keys on side 2 only) and `missing_in_2` (keys on
side 1 only) are disjoint, each is disjoint from `exists_in_both`, and the
three sets together cover exactly the union of both sides' key sets. -/
theorem repo_sets_partition (r1 r2 : RepoSide) :
    Disjoint (missing_in_1 r1 r2) (missing_in_2 r1 r2) ∧
    Disjoint (missing_in_1 r1 r2) (exists_in_both r1 r2) ∧
    Disjoint (missing_in_2 r1 r2) (exists_in_both r1 r2) ∧
    missing_in_1 r1 r2 ∪ missing_in_2 r1 r2 ∪ exists_in_both r1 r2 =
      r1.keys ∪ r2.keys := by
  refine ⟨?_, ?_, ?_, ?_⟩
  · rw [Finset.disjoint_left]
    intro a ha hb
    simp [missing_in_1, missing_in_2] at ha hb
    tauto
  · rw [Finset.disjoint_left]
    intro a ha hb
    simp [missing_in_1, exists_in_both] at ha hb
    tauto
  · rw [Finset.disjoint_left]
    intro a ha hb
    simp [missing_in_2, exists_in_both] at ha hb
    tauto
  · ext a
    simp [missing_in_1, missing_in_2, exists_in_both]
    tauto

/-- Witness for C2: the partition at the concrete end-to-end fixture. -/
theorem repo_sets_partition_witness :
    Disjoint (missing_in_1 localSide1 localSide2) (missing_in_2 localSide1 localSide2) ∧
    Disjoint (missing_in_1 localSide1 localSide2) (exists_in_both localSide1 localSide2) ∧
    Disjoint (missing_in_2 localSide1 localSide2) (exists_in_both localSide1 localSide2) ∧
    missing_in_1 localSide1 localSide2 ∪ missing_in_2 localSide1 localSide2 ∪
      exists_in_both localSide1 localSide2 = localSide1.keys ∪ localSide2.keys :=
  repo_sets_partition localSide1 localSide2

/-- C3: for a uri present on both sides, it is reported in the record's
`diffs` set exactly when the two sides' hash fields are not all equal:
a mismatch in `sha1` alone or in `sha2` alone already reports it. -/
theorem diffs_iff_hash_mismatch (i1 i2 : ArtSide) (uri : String)
    (h1 : uri ∈ i1.uris) (h2 : uri ∈ i2.uris) :
    uri ∈ (artifactReport i1 i2).diffs.getD ∅ ↔
      (i1.item uri).sha1 ≠ (i2.item uri).sha1 ∨
      (i1.item uri).sha2 ≠ (i2.item uri).sha2 := by
  have hmem : uri ∈ diff_uris i1 i2 ↔
      (i1.item uri).sha1 ≠ (i2.item uri).sha1 ∨
      (i1.item uri).sha2 ≠ (i2.item uri).sha2 := by
    simp [diff_uris, Finset.mem_filter, Finset.mem_inter, h1, h2]
  unfold artifactReport
  dsimp only
  by_cases hne : (diff_uris i1 i2).Nonempty
  · rw [if_pos hne]
    simpa using hmem
  · rw [if_neg hne]
    simp only [Option.getD_none, Finset.not_mem_empty, false_iff]
    intro h
    exact hne ⟨uri, hmem.mpr h⟩

/-- Witness for C3: `x.jar` has hashes `(h1, h2)` on side 1 and `(h1, h3)`
on side 2; the `sha2`-only mismatch reports it in `diffs`. -/
theorem diffs_iff_hash_mismatch_witness :
    ("x.jar" ∈ itemsA1.uris ∧ "x.jar" ∈ itemsA2.uris) ∧
    ("x.jar" ∈ (artifactReport itemsA1 itemsA2).diffs.getD ∅ ↔
      (itemsA1.item "x.jar").sha1 ≠ (itemsA2.item "x.jar").sha1 ∨
      (itemsA1.item "x.jar").sha2 ≠ (itemsA2.item "x.jar").sha2) :=
  ⟨⟨by decide, by decide⟩,
    diffs_iff_hash_mismatch itemsA1 itemsA2 "x.jar" (by decide) (by decide)⟩

/-- C4: with artifact comparison requested, a key present on both sides
whose (side-1) repository type is aggregating (`VIRTUAL` or `REMOTE`) never
appears as a key of the `artifacts` map, whatever the artifact fetchers
return. -/
theorem aggregating_never_compared (r1 r2 : RepoSide)
    (items1 items2 : String → ArtSide) (key : String)
    (_hb : key ∈ exists_in_both r1 r2)
    (hagg : r1.type key ∈ aggregating) :
    key ∉ (diff r1 r2 items1 items2 false).artifactKeys := by
  intro hmem
  simp only [diff, DiffReport.artifactKeys, Bool.false_eq_true, if_false,
    Finset.mem_filter] at hmem
  exact hmem.2.1 hagg

/-- Witness for C4: `lib-b` is on both sides and `VIRTUAL` on side 1; it is
not a key of the artifacts map even though its artifact lists differ. -/
theorem aggregating_never_compared_witness :
    ("lib-b" ∈ exists_in_both localSide1 localSide2 ∧
      localSide1.type "lib-b" ∈ aggregating) ∧
    "lib-b" ∉ (diff localSide1 localSide2 itemsFn1 itemsFn2 false).artifactKeys :=
  ⟨⟨by decide, by decide⟩,
    aggregating_never_compared localSide1 localSide2 itemsFn1 itemsFn2 "lib-b"
      (by decide) (by decide)⟩

/-- C5: `rclass_mismatch` is a subset of `exists_in_both` and holds exactly
the keys on both sides whose type tags differ; a key on both sides with
equal tags is in neither missing set nor the mismatch set. -/
theorem rclass_mismatch_spec (r1 r2 : RepoSide) (key : String) :
    rclass_mismatch r1 r2 ⊆ exists_in_both r1 r2 ∧
    (key ∈ rclass_mismatch r1 r2 ↔
      key ∈ exists_in_both r1 r2 ∧ r1.type key ≠ r2.type key) ∧
    (key ∈ exists_in_both r1 r2 ∧ r1.type key = r2.type key →
      key ∉ missing_in_1 r1 r2 ∧ key ∉ missing_in_2 r1 r2 ∧
      key ∉ rclass_mismatch r1 r2) := by
  refine ⟨Finset.filter_subset _ _, ?_, ?_⟩
  · simp [rclass_mismatch, Finset.mem_filter]
  · rintro ⟨hb, ht⟩
    refine ⟨?_, ?_, ?_⟩
    · simp only [exists_in_both, Finset.mem_inter] at hb
      simp [missing_in_1, hb.1]
    · simp only [exists_in_both, Finset.mem_inter] at hb
      simp [missing_in_2, hb.2]
    · simp [rclass_mismatch, Finset.mem_filter, ht]

/-- Witness for C5: `lib-a` is on both sides with equal `LOCAL` tags, so it
is in neither missing set nor `rclass_mismatch`. -/
theorem rclass_mismatch_spec_witness :
    ("lib-a" ∈ exists_in_both localSide1 localSide2 ∧
      localSide1.type "lib-a" = localSide2.type "lib-a") ∧
    ("lib-a" ∉ missing_in_1 localSide1 localSide2 ∧
      "lib-a" ∉ missing_in_2 localSide1 localSide2 ∧
      "lib-a" ∉ rclass_mismatch localSide1 localSide2) :=
  ⟨⟨by decide, by decide⟩,
    (rclass_mismatch_spec localSide1 localSide2 "lib-a").2.2 ⟨by decide, by decide⟩⟩

end SitesDiff

namespace SitesDiff

/-- Helper: the record built for a pair of artifact sides is empty exactly
when all three computed uri sets are empty. -/
theorem isEmptyRec_iff (i1 i2 : ArtSide) :
    (artifactReport i1 i2).isEmptyRec = true ↔
      ¬ (missing_in_1_uris i1 i2).Nonempty ∧
      ¬ (missing_in_2_uris i1 i2).Nonempty ∧
      ¬ (diff_uris i1 i2).Nonempty := by
  unfold artifactReport ArtifactReport.isEmptyRec
  dsimp only
  by_cases hm1 : (missing_in_1_uris i1 i2).Nonempty <;>
  by_cases hm2 : (missing_in_2_uris i1 i2).Nonempty <;>
  by_cases hd : (diff_uris i1 i2).Nonempty <;>
  simp [hm1, hm2, hd]

/-- C6: with artifact comparison requested, a key is in the `artifacts` map
only if at least one of its three computed sets is non-empty, and a key
whose artifact collections are identical on both sides (same uris, equal
items on them) is omitted from the map. -/
theorem artifacts_entry_nonempty (r1 r2 : RepoSide)
    (items1 items2 : String → ArtSide) (key : String) :
    (key ∈ (diff r1 r2 items1 items2 false).artifactKeys →
      (missing_in_1_uris (items1 key) (items2 key)).Nonempty ∨
      (missing_in_2_uris (items1 key) (items2 key)).Nonempty ∨
      (diff_uris (items1 key) (items2 key)).Nonempty) ∧
    ((items1 key).uris = (items2 key).uris ∧
      (∀ uri ∈ (items1 key).uris, (items1 key).item uri = (items2 key).item uri) →
      key ∉ (diff r1 r2 items1 items2 false).artifactKeys) := by
  constructor
  · intro hmem
    simp only [diff, DiffReport.artifactKeys, Bool.false_eq_true, if_false,
      Finset.mem_filter] at hmem
    have hne := hmem.2.2
    by_contra hc
    push_neg at hc
    exact hne ((isEmptyRec_iff _ _).mpr ⟨hc.1, hc.2.1, hc.2.2⟩)
  · rintro ⟨hu, hi⟩ hmem
    simp only [diff, DiffReport.artifactKeys, Bool.false_eq_true, if_false,
      Finset.mem_filter] at hmem
    apply hmem.2.2
    rw [isEmptyRec_iff]
    refine ⟨?_, ?_, ?_⟩
    · simp [missing_in_1_uris, ← hu, Finset.sdiff_self]
    · simp [missing_in_2_uris, hu, Finset.sdiff_self]
    · rintro ⟨u, hu2⟩
      simp only [diff_uris, Finset.mem_filter, Finset.mem_inter] at hu2
      obtain ⟨⟨hu1, _⟩, hne2⟩ := hu2
      rw [hi u hu1] at hne2
      simp at hne2

/-- Witness for C6: `lib-a` enters the map when its `x.jar` hashes differ,
and is omitted when both sides use the identical artifact collection. -/
theorem artifacts_entry_nonempty_witness :
    ("lib-a" ∈ (diff localSide1 localSide2 itemsFn1 itemsFn2 false).artifactKeys ∧
      ((missing_in_1_uris itemsA1 itemsA2).Nonempty ∨
       (missing_in_2_uris itemsA1 itemsA2).Nonempty ∨
       (diff_uris itemsA1 itemsA2).Nonempty)) ∧
    "lib-a" ∉ (diff localSide1 localSide2 itemsFn1 itemsFn1 false).artifactKeys :=
  ⟨⟨by decide,
     (artifacts_entry_nonempty localSide1 localSide2 itemsFn1 itemsFn2 "lib-a").1
       (by decide)⟩,
   (artifacts_entry_nonempty localSide1 localSide2 itemsFn1 itemsFn1 "lib-a").2
     ⟨rfl, fun uri _ => rfl⟩⟩

/-- C7: within one per-repository record, no uri reported in `diffs` is also
reported in `missing_in_1` or in `missing_in_2`. -/
theorem diffs_disjoint_missing (i1 i2 : ArtSide) :
    Disjoint ((artifactReport i1 i2).diffs.getD ∅)
      ((artifactReport i1 i2).missing_in_1.getD ∅) ∧
    Disjoint ((artifactReport i1 i2).diffs.getD ∅)
      ((artifactReport i1 i2).missing_in_2.getD ∅) := by
  have hd : (artifactReport i1 i2).diffs.getD ∅ ⊆ diff_uris i1 i2 := by
    unfold artifactReport; dsimp only; split_ifs <;> simp
  have hm1 : (artifactReport i1 i2).missing_in_1.getD ∅ ⊆ missing_in_1_uris i1 i2 := by
    unfold artifactReport; dsimp only; split_ifs <;> simp
  have hm2 : (artifactReport i1 i2).missing_in_2.getD ∅ ⊆ missing_in_2_uris i1 i2 := by
    unfold artifactReport; dsimp only; split_ifs <;> simp
  constructor
  · rw [Finset.disjoint_left]
    intro a ha hb
    have ha2 := hd ha
    have hb2 := hm1 hb
    simp [diff_uris, Finset.mem_filter, missing_in_1_uris] at ha2 hb2
    tauto
  · rw [Finset.disjoint_left]
    intro a ha hb
    have ha2 := hd ha
    have hb2 := hm2 hb
    simp [diff_uris, Finset.mem_filter, missing_in_2_uris] at ha2 hb2
    tauto

/-- Witness for C7: the disjointness at the concrete `x.jar` fixture. -/
theorem diffs_disjoint_missing_witness :
    Disjoint ((artifactReport itemsA1 itemsA2).diffs.getD ∅)
      ((artifactReport itemsA1 itemsA2).missing_in_1.getD ∅) ∧
    Disjoint ((artifactReport itemsA1 itemsA2).diffs.getD ∅)
      ((artifactReport itemsA1 itemsA2).missing_in_2.getD ∅) :=
  diffs_disjoint_missing itemsA1 itemsA2

/-- C8: when artifact comparison is excluded the `artifacts` section is
absent (`None`), and the repositories section equals the one produced with
artifact comparison requested. -/
theorem exclude_artifacts_section (r1 r2 : RepoSide)
    (items1 items2 : String → ArtSide) :
    (diff r1 r2 items1 items2 true).artifacts = none ∧
    (diff r1 r2 items1 items2 true).repositories =
      (diff r1 r2 items1 items2 false).repositories :=
  ⟨rfl, rfl⟩

/-- Witness for C8: the omission at the concrete fixture. -/
theorem exclude_artifacts_section_witness :
    (diff localSide1 localSide2 itemsFn1 itemsFn2 true).artifacts = none ∧
    (diff localSide1 localSide2 itemsFn1 itemsFn2 true).repositories =
      (diff localSide1 localSide2 itemsFn1 itemsFn2 false).repositories :=
  exclude_artifacts_section localSide1 localSide2 itemsFn1 itemsFn2

/-- C10: in a per-repository record each field is stored exactly when its
computed set is non-empty, and every stored set is non-empty — no record
carries an empty placeholder field. -/
theorem record_fields_iff_nonempty (i1 i2 : ArtSide) :
    ((artifactReport i1 i2).missing_in_1.isSome ↔ (missing_in_1_uris i1 i2).Nonempty) ∧
    ((artifactReport i1 i2).missing_in_2.isSome ↔ (missing_in_2_uris i1 i2).Nonempty) ∧
    ((artifactReport i1 i2).diffs.isSome ↔ (diff_uris i1 i2).Nonempty) ∧
    (∀ s, (artifactReport i1 i2).missing_in_1 = some s → s.Nonempty) ∧
    (∀ s, (artifactReport i1 i2).missing_in_2 = some s → s.Nonempty) ∧
    (∀ s, (artifactReport i1 i2).diffs = some s → s.Nonempty) := by
  unfold artifactReport
  dsimp only
  refine ⟨?_, ?_, ?_, ?_, ?_, ?_⟩ <;> (split_ifs with h <;> simp [h])

/-- Witness for C10: at the `x.jar` fixture the `diffs` field is stored as
the non-empty singleton and the missing fields are absent. -/
theorem record_fields_iff_nonempty_witness :
    (artifactReport itemsA1 itemsA2).diffs = some {"x.jar"} ∧
    ((artifactReport itemsA1 itemsA2).diffs.isSome ↔
      (diff_uris itemsA1 itemsA2).Nonempty) ∧
    (∀ s, (artifactReport itemsA1 itemsA2).diffs = some s → s.Nonempty) ∧
    ((artifactReport itemsA1 itemsA2).missing_in_1.isSome ↔
      (missing_in_1_uris itemsA1 itemsA2).Nonempty) :=
  ⟨by decide,
   (record_fields_iff_nonempty itemsA1 itemsA2).2.2.1,
   (record_fields_iff_nonempty itemsA1 itemsA2).2.2.2.2.2,
   (record_fields_iff_nonempty itemsA1 itemsA2).1⟩

end SitesDiff
